import Mathlib

/-!
Shallow embedding of the library-manager application in `Simple_app.py`.

The program is a Tkinter GUI over a SQLite database.  The embedding models

* the `books` table of the `LibraryDB` class as a list of `Book` records
  inside a `Store`, whose `clock` field stands for the wall-clock source of
  the `created_at TIMESTAMP DEFAULT CURRENT_TIMESTAMP` column (each insert
  samples and advances it) and whose `nextId` field stands for the
  `INTEGER PRIMARY KEY AUTOINCREMENT` counter (SQLite starts it at 1);
* the `users` table as a list of `User` records; the SHA-256 digest taken by
  `hash_password` is kept abstract as a function parameter `hash`, since no
  claim depends on properties of the digest itself;
* the SQL statements executed by `add_book`, `update_book`, `delete_book`,
  `fetch_books` and `summary` by the corresponding list operations,
  including SQLite `LIKE` pattern semantics (`%` matching any sequence and
  `_` matching one character), `lower` (ASCII-only case folding, which is
  what SQLite `lower` performs), `ORDER BY created_at DESC` (a sort by the
  `created_at` key), and the NULL result of `SUM` over an empty table
  together with the Python `x or 0` replacement;
* the Tk form-validation helper `_form_payload` and the button callbacks
  `add_book`, `update_selected`, `delete_selected` and `export_csv` of
  `LibraryApp`, with Python `str.strip` and `int(...)` parsing (sign,
  ASCII digits, single underscores between digits) made explicit.

String handling is modelled at ASCII scope: Python performs Unicode case
folding and whitespace stripping while SQLite `lower` is ASCII-only; every
claim and every scenario in the specification uses ASCII data, where the
two coincide with the model.  GUI side effects (modal dialogs, widget
refresh) are outside the embedding except where a claim mentions them; the
export path models the dialog-versus-file outcome explicitly.
-/

namespace SimpleApp

/-- Characters stripped by Python `str.strip()` with no argument, at ASCII
scope (space, tab, newline, carriage return, vertical tab, form feed). -/
def pyWhitespace (c : Char) : Bool :=
  c == ' ' || c == '\t' || c == '\n' || c == '\r' || c == '\x0b' || c == '\x0c'

/-- Python `str.strip()`: remove leading and trailing whitespace. -/
def pyStrip (s : String) : String :=
  String.mk (((s.data.dropWhile pyWhitespace).reverse.dropWhile pyWhitespace).reverse)

/-- ASCII lower-casing of one string, as computed by SQLite `lower(...)`
(and by Python `str.lower()` on ASCII input). -/
def lowerStr (s : String) : String :=
  String.mk (s.data.map Char.toLower)

/-- SQLite `LIKE` matching over character lists: `%` matches any sequence,
`_` matches exactly one character, any other pattern character matches
itself.  Both operands are already lower-cased by the query in
`fetch_books`, so character comparison is plain equality. -/
def matchLike : List Char → List Char → Bool
  | [], s => s.isEmpty
  | p :: ps, s =>
    if p == '%' then s.tails.any (fun t => matchLike ps t)
    else
      match s with
      | [] => false
      | c :: s2 => if p == '_' then matchLike ps s2 else p == c && matchLike ps s2

/-- Boolean test that the first list is an initial segment of the second. -/
def isPre : List Char → List Char → Bool
  | [], _ => true
  | _ :: _, [] => false
  | a :: n, c :: s => a == c && isPre n s

/-- Boolean test that the first list occurs contiguously inside the second. -/
def isSubList (n : List Char) : List Char → Bool
  | [] => isPre n []
  | c :: s => isPre n (c :: s) || isSubList n s

/-- Case-insensitive substring test between strings, the relation named by
the specification sentence for `fetch_books` (ASCII case folding). -/
def containsCI (needle hay : String) : Bool :=
  isSubList (lowerStr needle).data (lowerStr hay).data

/-- A search term is wildcard-free when it holds no SQLite `LIKE`
metacharacter `%` or `_`. -/
def wildcardFree (t : String) : Bool :=
  t.data.all (fun c => c != '%' && c != '_')

theorem toLower_eq_pct {c : Char} (h : c.toLower = '%') : c = '%' := by
  simp only [Char.toLower] at h
  split at h
  · exfalso
    rename_i hr
    obtain ⟨h1, h2⟩ := hr
    generalize c.toNat = n at h h1 h2
    interval_cases n <;> exact absurd h (by decide)
  · exact h

theorem toLower_eq_us {c : Char} (h : c.toLower = '_') : c = '_' := by
  simp only [Char.toLower] at h
  split at h
  · exfalso
    rename_i hr
    obtain ⟨h1, h2⟩ := hr
    generalize c.toNat = n at h h1 h2
    interval_cases n <;> exact absurd h (by decide)
  · exact h

theorem lowerStr_wildcard {t : String} (h : wildcardFree t = true) :
    ∀ c ∈ (lowerStr t).data, c ≠ '%' ∧ c ≠ '_' := by
  intro c hc
  simp only [lowerStr] at hc
  rcases List.mem_map.mp hc with ⟨d, hd, rfl⟩
  have hall := List.all_eq_true.mp h d hd
  simp only [Bool.and_eq_true, bne_iff_ne, ne_eq] at hall
  exact ⟨fun he => hall.1 (toLower_eq_pct he), fun he => hall.2 (toLower_eq_us he)⟩

theorem isPre_nil (h : List Char) : isPre [] h = true := by
  cases h <;> rfl

theorem matchLike_pct_singleton (h : List Char) : matchLike ['%'] h = true := by
  simp only [matchLike]
  rw [if_pos (by decide : (('%' == '%') = true)), List.any_eq_true]
  exact ⟨[], (List.mem_tails [] h).mpr List.nil_suffix, rfl⟩

theorem matchLike_append_pct (n : List Char) (hw : ∀ c ∈ n, c ≠ '%' ∧ c ≠ '_') :
    ∀ h : List Char, matchLike (n ++ ['%']) h = isPre n h := by
  induction n with
  | nil =>
    intro h
    simpa [isPre_nil] using matchLike_pct_singleton h
  | cons a n ih =>
    intro h
    have ha := hw a (List.mem_cons_self a n)
    have hn : ∀ c ∈ n, c ≠ '%' ∧ c ≠ '_' := fun c hc => hw c (List.mem_cons_of_mem a hc)
    have ha1 : (a == '%') = false := by simpa using ha.1
    have ha2 : (a == '_') = false := by simpa using ha.2
    cases h with
    | nil => simp [matchLike, isPre, ha1]
    | cons c s => simp [matchLike, isPre, ha1, ha2, ih hn s]

theorem tails_any_isPre (n : List Char) :
    ∀ h : List Char, h.tails.any (fun t => isPre n t) = isSubList n h := by
  intro h
  induction h with
  | nil => simp [isSubList]
  | cons c s ih => simp [isSubList, List.any_cons, ih]

theorem matchLike_pct_wrap (n : List Char) (hw : ∀ c ∈ n, c ≠ '%' ∧ c ≠ '_') :
    ∀ h : List Char, matchLike ('%' :: (n ++ ['%'])) h = isSubList n h := by
  intro h
  have hcong : ∀ l : List (List Char),
      l.any (fun t => matchLike (n ++ ['%']) t) = l.any (fun t => isPre n t) := by
    intro l
    induction l with
    | nil => rfl
    | cons x xs ihx => simp [List.any_cons, matchLike_append_pct n hw x, ihx]
  simp only [matchLike]
  rw [if_pos (by decide : (('%' == '%') = true)), hcong, tails_any_isPre]

theorem containsCI_empty (hay : String) : containsCI "" hay = true := by
  have : (lowerStr "").data = [] := rfl
  simp only [containsCI, this]
  cases hd : (lowerStr hay).data with
  | nil => rfl
  | cons c s => simp [isSubList, isPre_nil]

/-- A row of the `users` table. -/
structure User where
  id : Nat
  username : String
  password_hash : String
deriving Repr, DecidableEq

/-- Model of `LibraryDB.verify_user`: look up the first row with the given
username (`username` is UNIQUE in the schema, so at most one exists),
return `false` when the lookup is empty, otherwise compare the stored hash
against the digest of the input password.  The digest function of
`hash_password` is the abstract parameter `hash`. -/
def verify_user (hash : String → String) (users : List User)
    (username password : String) : Bool :=
  match users.find? (fun u => u.username == username) with
  | none => false
  | some u => u.password_hash == hash password

/-- The validated field set produced by `LibraryApp._form_payload` and
consumed by `add_book` and `update_book`. -/
structure Payload where
  title : String
  author : String
  category : String
  year : Option Int
  copies : Int
  available : Int
deriving Repr, DecidableEq

/-- A row of the `books` table. -/
structure Book where
  id : Nat
  title : String
  author : String
  category : String
  year : Option Int
  copies : Int
  available : Int
  created_at : Nat
deriving Repr, DecidableEq

/-- The `books` table together with the `AUTOINCREMENT` counter (`nextId`,
starting at 1 as SQLite does) and the wall-clock source sampled by the
`created_at` column default (`clock`, advanced past each sampled value). -/
structure Store where
  books : List Book
  nextId : Nat
  clock : Nat
deriving Repr, DecidableEq

/-- The store created by `_ensure_db` before any book is added. -/
def emptyStore : Store := { books := [], nextId := 1, clock := 0 }

/-- Model of `LibraryDB.add_book`: `INSERT INTO books (title, author,
category, year, copies, available) VALUES (...)`; the id comes from the
autoincrement counter and `created_at` from the clock. -/
def add_book (s : Store) (p : Payload) : Store :=
  { books := s.books ++
      [{ id := s.nextId, title := p.title, author := p.author,
         category := p.category, year := p.year, copies := p.copies,
         available := p.available, created_at := s.clock }],
    nextId := s.nextId + 1,
    clock := s.clock + 1 }

/-- The effect of the `UPDATE books SET title=:title, ... WHERE id=:id`
statement on one row whose id matched: every mutable field is overwritten,
while `id` and `created_at` are untouched. -/
def overwrite (b : Book) (p : Payload) : Book :=
  { b with title := p.title, author := p.author, category := p.category,
           year := p.year, copies := p.copies, available := p.available }

/-- Model of `LibraryDB.update_book`: overwrite all mutable fields of every
row whose id matches; no existence check is performed. -/
def update_book (s : Store) (book_id : Nat) (p : Payload) : Store :=
  { s with books := s.books.map (fun b => if b.id == book_id then overwrite b p else b) }

/-- Model of `LibraryDB.delete_book`: `DELETE FROM books WHERE id=?`. -/
def delete_book (s : Store) (book_id : Nat) : Store :=
  { s with books := s.books.filter (fun b => b.id != book_id) }

/-- The `WHERE lower(title) LIKE ? OR lower(author) LIKE ? OR
lower(category) LIKE ?` test of `fetch_books`, with the pattern
`%` + `search.lower()` + `%` built exactly as in the Python code. -/
def matchesSearch (search : String) (b : Book) : Bool :=
  let pat := '%' :: ((lowerStr search).data ++ ['%'])
  matchLike pat (lowerStr b.title).data || matchLike pat (lowerStr b.author).data ||
    matchLike pat (lowerStr b.category).data

/-- Row order produced by `ORDER BY created_at DESC`. -/
def byCreatedDesc : Book → Book → Prop := fun a b => b.created_at ≤ a.created_at

instance : DecidableRel byCreatedDesc :=
  fun a b => Nat.decLe b.created_at a.created_at

instance : IsTotal Book byCreatedDesc :=
  ⟨fun a b => Nat.le_total b.created_at a.created_at⟩

instance : IsTrans Book byCreatedDesc :=
  ⟨fun _ _ _ h1 h2 => Nat.le_trans h2 h1⟩

/-- Model of `LibraryDB.fetch_books`: with a non-empty search string the
rows are filtered by the three-column `LIKE` disjunction, with an empty one
(falsy in Python) all rows are taken; either way the result is ordered by
`created_at` descending. -/
def fetch_books (s : Store) (search : String) : List Book :=
  let rows := if search = "" then s.books else s.books.filter (matchesSearch search)
  List.insertionSort byCreatedDesc rows

/-- The dictionary returned by `LibraryDB.summary`. -/
structure Stats where
  total : Nat
  available : Int
  copies : Int
  issued : Nat
deriving Repr, DecidableEq

/-- SQL `SUM` over a column: NULL on an empty table, the sum otherwise. -/
def sqlSum : List Int → Option Int
  | [] => none
  | x :: xs => some (x :: xs).sum

/-- The Python `value or 0` applied to a possibly-NULL aggregate (`None`
becomes `0`; an integer is returned unchanged, `0 or 0` being `0`). -/
def pyOrZero : Option Int → Int
  | none => 0
  | some v => v

/-- Model of `LibraryDB.summary`: `SELECT COUNT(*), SUM(available),
SUM(copies) FROM books` and `SELECT COUNT(*) FROM books WHERE available=0`,
each NULL-guarded with `or 0` (a no-op on the counts, which are never
NULL). -/
def summary (s : Store) : Stats :=
  { total := s.books.length,
    available := pyOrZero (sqlSum (s.books.map (fun b => b.available))),
    copies := pyOrZero (sqlSum (s.books.map (fun b => b.copies))),
    issued := (s.books.filter (fun b => b.available == 0)).length }

/-- Digit-and-underscore tail of a Python integer literal: after a first
digit, single underscores may stand between digits; a trailing, leading or
doubled underscore is a `ValueError`.  `acc` carries the value read so
far. -/
def digitsVal (acc : Nat) : List Char → Option Nat
  | [] => some acc
  | c :: cs =>
    if c == '_' then
      match cs with
      | [] => none
      | d :: ds => if d.isDigit then digitsVal (acc * 10 + (d.toNat - 48)) ds else none
    else if c.isDigit then digitsVal (acc * 10 + (c.toNat - 48)) cs else none

/-- Unsigned part of Python `int(...)`: at least one leading digit. -/
def pyDigits : List Char → Option Nat
  | [] => none
  | c :: cs => if c.isDigit then digitsVal (c.toNat - 48) cs else none

/-- Model of Python `int(str)` at ASCII scope: surrounding whitespace is
stripped, an optional single sign precedes the digits, and malformed input
(the `ValueError` case) is `none`. -/
def pyInt (s : String) : Option Int :=
  match (pyStrip s).data with
  | '+' :: rest => (pyDigits rest).map (fun n => (n : Int))
  | '-' :: rest => (pyDigits rest).map (fun n => -(n : Int))
  | rest => (pyDigits rest).map (fun n => (n : Int))

/-- The six entry widgets of the Manage Books form, as raw strings. -/
structure Form where
  title : String
  author : String
  category : String
  year : String
  copies : String
  available : String
deriving Repr, DecidableEq

/-- Model of `LibraryApp._form_payload`: strip every field, substitute
`"0"` for a blank Copies or Available field, reject a blank title or
author, parse Year (optional), Copies and Available as integers (any
`ValueError` aborts), clamp `copies` to be non-negative and `available`
into `[0, copies]`.  A `none` result is the aborted path, on which the
callbacks return before touching the store. -/
def form_payload (f : Form) : Option Payload :=
  let title := pyStrip f.title
  let author := pyStrip f.author
  let category := pyStrip f.category
  let year := pyStrip f.year
  let copies := if pyStrip f.copies = "" then "0" else pyStrip f.copies
  let available := if pyStrip f.available = "" then "0" else pyStrip f.available
  if title = "" ∨ author = "" then none
  else
    match (if year = "" then some none else (pyInt year).map some),
        pyInt copies, pyInt available with
    | some year_val, some copies_raw, some available_raw =>
      some { title := title, author := author, category := category,
             year := year_val, copies := max 0 copies_raw,
             available := max 0 (min available_raw (max 0 copies_raw)) }
    | _, _, _ => none

/-- Model of the `LibraryApp.add_book` callback: validate the form and
insert on success; on a validation failure the store is untouched. -/
def add_book_ui (f : Form) (s : Store) : Store :=
  match form_payload f with
  | none => s
  | some p => add_book s p

/-- Model of the `LibraryApp.update_selected` callback: without a selected
row (`sel = none`) only a warning dialog is shown; otherwise the form is
validated and the selected id updated on success. -/
def update_selected_ui (sel : Option Nat) (f : Form) (s : Store) : Store :=
  match sel with
  | none => s
  | some book_id =>
    match form_payload f with
    | none => s
    | some p => update_book s book_id p

/-- Model of the `LibraryApp.delete_selected` callback: needs a selected
row and a confirmed `askyesno` dialog. -/
def delete_selected_ui (sel : Option Nat) (confirmed : Bool) (s : Store) : Store :=
  match sel with
  | none => s
  | some book_id => if confirmed then delete_book s book_id else s

/-- The database file name (`DB_PATH` sits next to the script). -/
def dbFileName : String := "library.db"

/-- Model of `pathlib.Path.with_suffix` on a plain file name: drop the text
from the last dot on (when a dot exists) and append the new suffix. -/
def withSuffix (name : String) (suffix : String) : String :=
  let l := name.data
  if l.contains '.' then
    String.mk (((l.reverse.dropWhile (fun c => c != '.')).drop 1).reverse ++ suffix.data)
  else
    String.mk (l ++ suffix.data)

/-- The CSV header row written by `export_csv`. -/
def csvHeader : List String := ["ID", "Title", "Author", "Category", "Year", "Copies", "Available", "Created"]

/-- A nullable integer cell as `csv.writer` renders it: `None` becomes the
empty field. -/
def yearCell : Option Int → String
  | none => ""
  | some v => toString v

/-- One book row in the order of the `SELECT` column list. -/
def csvRow (b : Book) : List String :=
  [toString b.id, b.title, b.author, b.category, yearCell b.year,
   toString b.copies, toString b.available, toString b.created_at]

/-- Outcome of the `LibraryApp.export_csv` callback: either the modal
"No data" dialog with no file written, or a file at the given path holding
the given rows (a cell list per line). -/
inductive ExportOutcome where
  | noData : ExportOutcome
  | wrote : String → List (List String) → ExportOutcome
deriving Repr, DecidableEq

/-- Model of `LibraryApp.export_csv`: re-run `fetch_books` on the stripped
search field; an empty row set only raises the dialog, otherwise the header
plus one row per fetched book is written to the database path with its
suffix replaced by `.csv`. -/
def export_csv (s : Store) (searchField : String) : ExportOutcome :=
  let rows := fetch_books s (pyStrip searchField)
  if rows.isEmpty then ExportOutcome.noData
  else ExportOutcome.wrote (withSuffix dbFileName ".csv") (csvHeader :: rows.map csvRow)

/-- The payload of the Dune scenario in the specification. -/
def dunePayload : Payload :=
  { title := "Dune", author := "Herbert", category := "", year := none,
    copies := 2, available := 2 }

/-- The store obtained by adding the Dune payload to an empty store. -/
def duneStore : Store := add_book emptyStore dunePayload

/-- The row the Dune scenario creates. -/
def duneBook : Book :=
  { id := 1, title := "Dune", author := "Herbert", category := "", year := none,
    copies := 2, available := 2, created_at := 0 }

theorem map_update_noop (book_id : Nat) (p : Payload) :
    ∀ l : List Book, (∀ b ∈ l, b.id ≠ book_id) →
      l.map (fun b => if b.id == book_id then overwrite b p else b) = l := by
  intro l hl
  induction l with
  | nil => rfl
  | cons x xs ih =>
    simp only [List.map_cons]
    rw [if_neg (by simpa using hl x (List.mem_cons_self x xs)),
      ih (fun b hb => hl b (List.mem_cons_of_mem x hb))]

/-- Claim C4: updating an id that is present in no row is a silent no-op,
leaving the store (in particular every row of the books table)
unchanged. -/
theorem C4_update_missing_id_noop (s : Store) (book_id : Nat) (p : Payload)
    (h : ∀ b ∈ s.books, b.id ≠ book_id) : update_book s book_id p = s := by
  unfold update_book
  rw [map_update_noop book_id p s.books h]

theorem C4_witness :
    update_book duneStore 99
      { title := "X", author := "Y", category := "", year := none,
        copies := 1, available := 1 } = duneStore :=
  C4_update_missing_id_noop duneStore 99 _ (by decide)

/-- Claim C6: applying `update_book` twice with the same id and payload
yields the same store as applying it once. -/
theorem C6_update_idempotent (s : Store) (book_id : Nat) (p : Payload) :
    update_book (update_book s book_id p) book_id p = update_book s book_id p := by
  simp only [update_book, List.map_map]
  congr 1
  apply List.map_congr_left
  intro b _
  simp only [Function.comp_apply]
  by_cases hb : (b.id == book_id) = true
  · simp [hb, overwrite]
  · simp [hb]

/-- Claim C7: the `total` field of `summary` equals the number of rows an
empty-term `fetch_books` returns. -/
theorem C7_summary_total_eq_fetch_length (s : Store) :
    (summary s).total = (fetch_books s "").length := by
  simp [summary, fetch_books, List.length_insertionSort]

/-- Claim C5: after `add_book`, an empty-term `fetch_books` includes a row
whose six payload fields match the payload. -/
theorem C5_add_book_fetch_contains (s : Store) (p : Payload) :
    ∃ b, b ∈ fetch_books (add_book s p) "" ∧ b.title = p.title ∧
      b.author = p.author ∧ b.category = p.category ∧ b.year = p.year ∧
      b.copies = p.copies ∧ b.available = p.available := by
  refine ⟨⟨s.nextId, p.title, p.author, p.category, p.year, p.copies, p.available, s.clock⟩,
    ?_, rfl, rfl, rfl, rfl, rfl, rfl⟩
  simp [fetch_books, add_book, List.mem_insertionSort]

/-- Claim C3: `summary` returns the row count of the books table, the sums
of the `available` and `copies` columns, and the count of rows with
`available = 0`; in the Dune scenario on an empty store it returns
`{total := 1, available := 2, copies := 2, issued := 0}`. -/
theorem C3_summary_fields :
    (∀ s : Store,
      (summary s).total = s.books.length ∧
      (summary s).available = (s.books.map (fun b => b.available)).sum ∧
      (summary s).copies = (s.books.map (fun b => b.copies)).sum ∧
      (summary s).issued = (s.books.filter (fun b => b.available == 0)).length) ∧
    summary (add_book emptyStore dunePayload) =
      { total := 1, available := 2, copies := 2, issued := 0 } := by
  constructor
  · intro s
    refine ⟨rfl, ?_, ?_, rfl⟩
    · cases hb : s.books with
      | nil => simp [summary, sqlSum, pyOrZero, hb]
      | cons x xs => simp [summary, sqlSum, pyOrZero, hb]
    · cases hb : s.books with
      | nil => simp [summary, sqlSum, pyOrZero, hb]
      | cons x xs => simp [summary, sqlSum, pyOrZero, hb]
  · decide

/-- Claim C8: `verify_user` is false when no stored user carries the
username, and, for the row the lookup finds, true exactly when the stored
`password_hash` equals the digest of the input password. -/
theorem C8_verify_user_spec (hash : String → String) (users : List User)
    (username password : String) :
    ((∀ u ∈ users, u.username ≠ username) →
      verify_user hash users username password = false) ∧
    (∀ u, users.find? (fun v => v.username == username) = some u →
      (verify_user hash users username password = true ↔
        u.password_hash = hash password)) ∧
    (verify_user hash users username password = true ↔
      ∃ u, users.find? (fun v => v.username == username) = some u ∧
        u.password_hash = hash password) := by
  refine ⟨?_, ?_, ?_⟩
  · intro h
    unfold verify_user
    rw [List.find?_eq_none.mpr (fun u hu => by simpa using h u hu)]
  · intro u hu
    unfold verify_user
    rw [hu]
    simp
  · unfold verify_user
    cases hf : users.find? (fun v => v.username == username) with
    | none => simp
    | some u => simp

theorem C8_witness :
    verify_user (fun s => String.append s "#") [⟨1, "admin", "pw#"⟩] "ghost" "pw" = false ∧
    verify_user (fun s => String.append s "#") [⟨1, "admin", "pw#"⟩] "admin" "pw" = true := by
  constructor
  · exact (C8_verify_user_spec _ _ "ghost" "pw").1 (by decide)
  · exact ((C8_verify_user_spec _ _ "admin" "pw").2.1 ⟨1, "admin", "pw#"⟩ (by decide)).mpr (by decide)

theorem matchesSearch_eq_containsCI {term : String} (hw : wildcardFree term = true)
    (b : Book) :
    matchesSearch term b =
      (containsCI term b.title || containsCI term b.author || containsCI term b.category) := by
  have hwc := lowerStr_wildcard hw
  simp only [matchesSearch, containsCI]
  rw [matchLike_pct_wrap _ hwc, matchLike_pct_wrap _ hwc, matchLike_pct_wrap _ hwc]

/-- Claim C1 (amended): for every search term free of the SQLite `LIKE`
metacharacters `%` and `_`, `fetch_books` returns exactly the stored books
one of whose title, author or category contains the term as a
case-insensitive substring (the empty term returning all rows), ordered by
creation time descending; searching "dun" or "DUN" on the Dune store
returns the Dune row and searching "zzz" returns the empty list.  The
wildcard restriction is forced: the code feeds the term into a `LIKE`
pattern, so `%` and `_` are interpreted, not matched literally (see the
counterexample). -/
theorem C1_fetch_books_search (s : Store) (term : String)
    (hw : wildcardFree term = true) :
    ((fetch_books s term).Perm (s.books.filter (fun b =>
        containsCI term b.title || containsCI term b.author ||
          containsCI term b.category)) ∧
      (fetch_books s term).Pairwise byCreatedDesc) ∧
    fetch_books duneStore "dun" = [duneBook] ∧
    fetch_books duneStore "DUN" = [duneBook] ∧
    fetch_books duneStore "zzz" = [] := by
  refine ⟨⟨?_, ?_⟩, by decide, by decide, by decide⟩
  · unfold fetch_books
    refine (List.perm_insertionSort _ _).trans ?_
    by_cases ht : term = ""
    · subst ht
      rw [if_pos rfl, List.filter_eq_self.mpr (fun b _ => by simp [containsCI_empty])]
    · rw [if_neg ht, List.filter_congr (fun b _ => matchesSearch_eq_containsCI hw b)]
  · exact List.sorted_insertionSort byCreatedDesc _

theorem C1_witness :
    ((fetch_books duneStore "dun").Perm (duneStore.books.filter (fun b =>
        containsCI "dun" b.title || containsCI "dun" b.author ||
          containsCI "dun" b.category)) ∧
      (fetch_books duneStore "dun").Pairwise byCreatedDesc) ∧
    fetch_books duneStore "dun" = [duneBook] ∧
    fetch_books duneStore "DUN" = [duneBook] ∧
    fetch_books duneStore "zzz" = [] :=
  C1_fetch_books_search duneStore "dun" (by decide)

/-- Counterexample to claim C1 as stated: the term consisting of the single
character underscore returns the Dune row even though no field of that row
contains an underscore — `LIKE` reads `_` as the any-one-character
wildcard, so the result is not the case-insensitive-substring row set the
claim describes. -/
theorem C1_counterexample :
    fetch_books duneStore "_" = [duneBook] ∧
    containsCI "_" duneBook.title = false ∧
    containsCI "_" duneBook.author = false ∧
    containsCI "_" duneBook.category = false := by
  exact ⟨by decide, by decide, by decide, by decide⟩

theorem form_payload_inv {f : Form} {p : Payload} (h : form_payload f = some p) :
    0 ≤ p.available ∧ p.available ≤ p.copies := by
  simp only [form_payload] at h
  split at h
  · cases h
  · split at h
    · rw [Option.some.injEq] at h
      subst h
      constructor
      · exact le_max_left 0 _
      · exact max_le (le_max_left 0 _) (min_le_right _ _)
    · cases h

/-- Claim C2: on a store whose rows all satisfy `0 ≤ available ≤ copies`,
every UI-driven mutation (the Add, Update and Delete callbacks) preserves
that invariant for every row: the validation step clamps `available` into
`[0, copies]` on every payload it produces, and a rejected form (malformed
numeric input or missing title/author) aborts the mutation, leaving the
store unchanged. -/
theorem C2_ui_mutations_preserve_invariant (s : Store) (f : Form)
    (sel : Option Nat) (confirmed : Bool)
    (hs : ∀ b ∈ s.books, 0 ≤ b.available ∧ b.available ≤ b.copies) :
    (∀ p, form_payload f = some p → 0 ≤ p.available ∧ p.available ≤ p.copies) ∧
    (∀ b ∈ (add_book_ui f s).books, 0 ≤ b.available ∧ b.available ≤ b.copies) ∧
    (∀ b ∈ (update_selected_ui sel f s).books, 0 ≤ b.available ∧ b.available ≤ b.copies) ∧
    (∀ b ∈ (delete_selected_ui sel confirmed s).books, 0 ≤ b.available ∧ b.available ≤ b.copies) ∧
    (form_payload f = none → add_book_ui f s = s ∧ update_selected_ui sel f s = s) := by
  refine ⟨fun p hp => form_payload_inv hp, ?_, ?_, ?_, ?_⟩
  · intro b hb
    unfold add_book_ui at hb
    cases hp : form_payload f with
    | none => rw [hp] at hb; exact hs b hb
    | some p =>
      rw [hp] at hb
      simp only [add_book, List.mem_append, List.mem_singleton] at hb
      rcases hb with hb | hb
      · exact hs b hb
      · subst hb
        exact form_payload_inv hp
  · intro b hb
    unfold update_selected_ui at hb
    cases sel with
    | none => exact hs b hb
    | some book_id =>
      cases hp : form_payload f with
      | none => rw [hp] at hb; exact hs b hb
      | some p =>
        rw [hp] at hb
        simp only [update_book, List.mem_map] at hb
        rcases hb with ⟨b0, hb0, rfl⟩
        by_cases hid : (b0.id == book_id) = true
        · simpa [hid, overwrite] using form_payload_inv hp
        · simpa [hid] using hs b0 hb0
  · intro b hb
    unfold delete_selected_ui at hb
    cases sel with
    | none => exact hs b hb
    | some book_id =>
      cases confirmed with
      | false => exact hs b hb
      | true =>
        simp only [if_pos, delete_book, List.mem_filter] at hb
        exact hs b hb.1
  · intro hnone
    constructor
    · unfold add_book_ui
      rw [hnone]
    · unfold update_selected_ui
      cases sel with
      | none => rfl
      | some book_id => rw [hnone]

theorem C2_witness :
    add_book_ui ⟨"T", "A", "", "", "x", "1"⟩ duneStore = duneStore ∧
    update_selected_ui (some 1) ⟨"T", "A", "", "", "x", "1"⟩ duneStore = duneStore ∧
    (0 ≤ duneBook.available ∧ duneBook.available ≤ duneBook.copies) := by
  have h := C2_ui_mutations_preserve_invariant duneStore
    ⟨"T", "A", "", "", "x", "1"⟩ (some 1) false (by decide)
  have h5 := h.2.2.2.2 (by decide)
  exact ⟨h5.1, h5.2, h.2.2.2.1 duneBook (by decide)⟩

/-- Claim C10: a blank Copies (or Available) field is not rejected —
validation substitutes the string "0" — and with non-empty title and
author and blank Copies every payload the validation produces has
`copies = 0` and `available` clamped to `0`, whatever the Available field
holds (in particular the blank field and the default "1"). -/
theorem C10_blank_copies_clamps (f : Form)
    (ht : pyStrip f.title ≠ "") (ha : pyStrip f.author ≠ "")
    (hc : pyStrip f.copies = "") :
    (∀ p, form_payload f = some p → p.copies = 0 ∧ p.available = 0) ∧
    (pyStrip f.year = "" → pyStrip f.available = "" →
      form_payload f = some ({ title := pyStrip f.title, author := pyStrip f.author,
                               category := pyStrip f.category, year := none,
                               copies := 0, available := 0 } : Payload)) ∧
    (pyStrip f.year = "" → pyStrip f.available = "1" →
      form_payload f = some ({ title := pyStrip f.title, author := pyStrip f.author,
                               category := pyStrip f.category, year := none,
                               copies := 0, available := 0 } : Payload)) := by
  have h0 : pyInt "0" = some 0 := by decide
  have h1 : pyInt "1" = some 1 := by decide
  have hta : ¬ (pyStrip f.title = "" ∨ pyStrip f.author = "") := by simp [ht, ha]
  refine ⟨?_, ?_, ?_⟩
  · intro p hp
    simp only [form_payload, hc] at hp
    rw [if_neg hta] at hp
    rw [if_pos trivial] at hp
    split at hp
    · rename_i year_val copies_raw available_raw heq1 heq2 heq3
      rw [Option.some.injEq] at hp
      subst hp
      simp only [h0, Option.some.injEq] at heq2
      constructor
      · simp
        omega
      · simp
        omega
    · cases hp
  · intro hy hav
    simp only [form_payload, hc, hy, hav]
    rw [if_neg hta]
    simp [h0]
  · intro hy hav
    simp only [form_payload, hc, hy, hav]
    rw [if_neg hta]
    simp [h0, h1]

theorem C10_witness :
    form_payload ⟨"Dune", "Herbert", "", "", "", "1"⟩ =
      some ({ title := "Dune", author := "Herbert", category := "", year := none,
              copies := 0, available := 0 } : Payload) := by
  have h := (C10_blank_copies_clamps ⟨"Dune", "Herbert", "", "", "", "1"⟩
    (by decide) (by decide) (by decide)).2.2 (by decide) (by decide)
  exact h


/-- Claim C9: the CSV export re-runs the current filter; with a non-empty
row set it writes, at the database path with its suffix replaced by
`.csv` (same base name), the fixed header followed by one row per fetched
book; with an empty row set no file is written and the outcome is the
modal no-data dialog. -/
theorem C9_export_csv_spec (s : Store) (searchField : String) :
    (fetch_books s (pyStrip searchField) = [] →
      export_csv s searchField = ExportOutcome.noData) ∧
    (∀ path content, export_csv s searchField = ExportOutcome.wrote path content →
      path = withSuffix dbFileName ".csv" ∧ path = "library.csv" ∧
      content = csvHeader :: (fetch_books s (pyStrip searchField)).map csvRow ∧
      content.length = (fetch_books s (pyStrip searchField)).length + 1) ∧
    (fetch_books s (pyStrip searchField) ≠ [] →
      export_csv s searchField = ExportOutcome.wrote "library.csv"
        (csvHeader :: (fetch_books s (pyStrip searchField)).map csvRow)) := by
  have hpath : withSuffix dbFileName ".csv" = "library.csv" := by decide
  refine ⟨?_, ?_, ?_⟩
  · intro h
    simp [export_csv, h]
  · intro path content h
    simp only [export_csv] at h
    split at h
    · cases h
    · rename_i hne
      rw [ExportOutcome.wrote.injEq] at h
      obtain ⟨rfl, rfl⟩ := h
      exact ⟨rfl, hpath, rfl, by simp⟩
  · intro h
    rw [← hpath]
    simp only [export_csv]
    rw [if_neg (by simpa using h)]

theorem C9_witness :
    export_csv emptyStore "" = ExportOutcome.noData ∧
    export_csv duneStore "" =
      ExportOutcome.wrote "library.csv" [csvHeader, csvRow duneBook] := by
  constructor
  · exact (C9_export_csv_spec emptyStore "").1 (by decide)
  · exact (C9_export_csv_spec duneStore "").2.2 (by decide)

end SimpleApp
